import Mathlib

/-!
Verification of the dashboard HTTP server (`server.py`).

The development shallowly embeds the server's request handling:

* `JValue` models JSON values produced by `json.dumps` (numbers as exact
  rationals, since every number the server emits originates from an integer
  or a fixed-point decimal carried through unchanged).
* `CellValue` models the values a `pyodbc` row cell can hold: `None`,
  integers, floats, strings, `Decimal`, `datetime` objects, and an object
  whose `isoformat()` call raises (to model row-conversion failures).
* Database effects (connecting, executing the query, the rows returned) are
  an explicit oracle (`DBWorld`, `World`); Python exceptions are modelled as
  `Except` values, and a `try/except` block as a `match` on them.
* `do_GET`, `handle_flights_api`, `handle_test_connection`, `query_flights`
  and the connection-string builder are translated line by line from
  `server.py`; responses record the status code, the header list as
  assembled by `send_response` / `send_header` / the overridden
  `end_headers`, and the body.
-/

namespace Dashboard

/-- JSON values, the output domain of `json.dumps` as the server uses it. -/
inductive JValue where
  | null
  | bool (b : Bool)
  | num (q : ℚ)
  | str (s : String)
  | arr (xs : List JValue)
  | obj (fields : List (String × JValue))

/-- A Python `datetime.datetime` value (second resolution, microseconds 0,
as in the single-row scenario of the spec). -/
structure PyDateTime where
  year : Nat
  month : Nat
  day : Nat
  hour : Nat
  minute : Nat
  second : Nat
  deriving DecidableEq, Repr

/-- Range constraints Python's `datetime` constructor enforces
(`MINYEAR = 1`, `MAXYEAR = 9999`, and the usual field bounds). -/
def PyDateTime.valid (dt : PyDateTime) : Prop :=
  1 ≤ dt.year ∧ dt.year ≤ 9999 ∧ 1 ≤ dt.month ∧ dt.month ≤ 12 ∧
  1 ≤ dt.day ∧ dt.day ≤ 31 ∧ dt.hour ≤ 23 ∧ dt.minute ≤ 59 ∧ dt.second ≤ 59

instance (dt : PyDateTime) : Decidable dt.valid := by
  unfold PyDateTime.valid; infer_instance

/-- Fixed-width, zero-padded decimal rendering of `n` as `k` digit
characters, most significant first: the building block of
`datetime.isoformat()`'s zero-padded fields. -/
def padNum : Nat → Nat → List Char
  | 0, _ => []
  | k + 1, n => Nat.digitChar (n / 10 ^ k) :: padNum k (n % 10 ^ k)

/-- Character list of Python's `datetime.isoformat()` output
`YYYY-MM-DDTHH:MM:SS` (microseconds are 0 and therefore omitted). -/
def isoChars (dt : PyDateTime) : List Char :=
  padNum 4 dt.year ++ ('-' :: (padNum 2 dt.month ++ ('-' :: (padNum 2 dt.day ++
    ('T' :: (padNum 2 dt.hour ++ (':' :: (padNum 2 dt.minute ++
      (':' :: padNum 2 dt.second)))))))))

/-- Python's `datetime.isoformat()` as a string. -/
def PyDateTime.isoformat (dt : PyDateTime) : String :=
  String.mk (isoChars dt)

/-- Values a `pyodbc` row cell can hold when handed to the conversion loop of
`query_flights`. `isoRaises` models an object that has an `isoformat`
attribute whose call raises, giving the row-conversion failure path. -/
inductive CellValue where
  | vnone
  | vint (n : Int)
  | vfloat (q : ℚ)
  | vstr (s : String)
  | vdecimal (q : ℚ)
  | vdatetime (dt : PyDateTime)
  | isoRaises (msg : String)
  deriving DecidableEq, Repr

/-- A Flight Record: the `dict(zip(columns, row))` of `query_flights` after
the normalization loop, keys in insertion order. -/
def Flight : Type := List (String × CellValue)

/-! ## Configuration constants (`server.py` lines 17-23) -/

/-- Configured SQL Server host/instance. -/
def SQL_SERVER : String := ".\\SQLEXPRESS"

/-- Configured database name. -/
def SQL_DATABASE : String := "test"

/-- Configured username (empty selects Windows Authentication). -/
def SQL_USERNAME : String := ""

/-- Configured password (empty selects Windows Authentication). -/
def SQL_PASSWORD : String := ""

/-- Configured ODBC driver identifier. -/
def SQL_DRIVER : String := "\x7bODBC Driver 17 for SQL Server\x7d"

/-- Listening port. -/
def PORT : Nat := 8000

/-- Connection string built by `get_sql_connection` from the configured
username and password. Python's `if SQL_USERNAME and SQL_PASSWORD:` is true
exactly when both strings are non-empty. -/
def connectionString (user pass : String) : String :=
  if user ≠ "" ∧ pass ≠ "" then
    "DRIVER=" ++ SQL_DRIVER ++ ";" ++
    "SERVER=" ++ SQL_SERVER ++ ";" ++
    "DATABASE=" ++ SQL_DATABASE ++ ";" ++
    "UID=" ++ user ++ ";" ++
    "PWD=" ++ pass
  else
    "DRIVER=" ++ SQL_DRIVER ++ ";" ++
    "SERVER=" ++ SQL_SERVER ++ ";" ++
    "DATABASE=" ++ SQL_DATABASE ++ ";" ++
    "Trusted_Connection=yes;"

/-- Python's `s[:100]` slice: the first 100 code points. -/
def pySlice100 (s : String) : String :=
  String.mk (s.data.take 100)

/-- Boolean check that `pat` starts `l`. -/
def leadsWith : List Char → List Char → Bool
  | [], _ => true
  | _ :: _, [] => false
  | a :: as, b :: bs => a == b && leadsWith as bs

/-- Boolean substring check on strings. -/
def containsSub (pat s : String) : Bool :=
  s.data.tails.any (fun t => leadsWith pat.data t)

/-! ## Responses

A response records what the handler wrote: the status code passed to
`send_response`, the headers in the order they were sent (explicit
`send_header` calls first, then the three CORS headers appended by the
overridden `end_headers`), and the body bytes written to `wfile`. -/

/-- Response body: a JSON document for the API paths and the error boundary,
raw file contents for the static path. -/
inductive Body where
  | json (j : JValue)
  | file (contents : String)

/-- An HTTP response as assembled by the handler. -/
structure Response where
  status : Nat
  headers : List (String × String)
  body : Body

/-- The three CORS headers that the overridden `end_headers` adds to every
response (`server.py` lines 236-241). -/
def corsHeaders : List (String × String) :=
  [("Access-Control-Allow-Origin", "*"),
   ("Access-Control-Allow-Methods", "GET"),
   ("Access-Control-Allow-Headers", "Content-Type")]

/-- A JSON response: `send_response status`, a `Content-Type` header, then
`end_headers` (which appends the CORS headers), then the JSON body. -/
def mkJsonResponse (status : Nat) (j : JValue) : Response :=
  { status := status,
    headers := [("Content-Type", "application/json")] ++ corsHeaders,
    body := Body.json j }

/-- A static-file response produced by the inherited
`SimpleHTTPRequestHandler.do_GET`: the library picks the status, its own
headers and the contents, but finishes through the overridden `end_headers`,
so the CORS headers are appended. -/
def mkStaticResponse (status : Nat) (libHeaders : List (String × String))
    (contents : String) : Response :=
  { status := status,
    headers := libHeaders ++ corsHeaders,
    body := Body.file contents }

/-! ## Database oracle -/

/-- Outcome of `get_sql_connection`: `pyodbc.connect` either succeeds or
raises (in which case `get_sql_connection` catches and returns `None`). -/
inductive ConnectOutcome where
  | fail
  | ok
  deriving DecidableEq, Repr

/-- Outcome of the inherited static-file handler on a non-API path: either a
complete response (status, library headers, file bytes) or an exception
propagating out of `super().do_GET()`. -/
inductive StaticOutcome where
  | ok (status : Nat) (libHeaders : List (String × String)) (contents : String)
  | raises (msg : String)

/-- The database's behaviour for one `/api/flights` request: whether the
connection opens, whether `cursor.execute`/`fetchall` raise, and the column
names and rows the cursor delivers. -/
structure DBWorld where
  connect : ConnectOutcome
  execute : Except String Unit
  columns : List String
  rows : List (List CellValue)

/-- Everything outside the program that one GET request can observe. -/
structure World where
  path : String
  db : DBWorld
  tcConnect : ConnectOutcome
  tcVersion : Except String String
  static : StaticOutcome

/-! ## query_flights (`server.py` lines 73-127) -/

/-- The fixed SQL text of `query_flights`. -/
def flightsQuery : String :=
  "SELECT id, date, [from], [to], price, duration FROM flights ORDER BY date ASC"

/-- One step of the normalization loop body (`server.py` lines 105-114):
`None` is kept, a value with an `isoformat` attribute is replaced by its ISO
string (raising if `isoformat()` raises), a `Decimal` is replaced by a
float, anything else is left unchanged. -/
def convertCell : CellValue → Except String CellValue
  | CellValue.vnone => Except.ok CellValue.vnone
  | CellValue.vdatetime dt => Except.ok (CellValue.vstr dt.isoformat)
  | CellValue.isoRaises msg => Except.error msg
  | CellValue.vdecimal q => Except.ok (CellValue.vfloat q)
  | v => Except.ok v

/-- The normalization loop over the `dict(zip(columns, row))` items, in
insertion order; the first raising cell aborts the whole conversion. -/
def convertPairs : List (String × CellValue) → Except String (List (String × CellValue))
  | [] => Except.ok []
  | (k, v) :: rest =>
      match convertCell v, convertPairs rest with
      | Except.error e, _ => Except.error e
      | Except.ok _, Except.error e => Except.error e
      | Except.ok v', Except.ok rest' => Except.ok ((k, v') :: rest')

/-- Conversion of one row: `flight = dict(zip(columns, row))` then the
normalization loop. -/
def convertRow (cols : List String) (row : List CellValue) :
    Except String Flight :=
  convertPairs (cols.zip row)

/-- Conversion of all fetched rows, in order; an exception in any row
propagates out of the `for` loop. -/
def convertRows (cols : List String) : List (List CellValue) → Except String (List Flight)
  | [] => Except.ok []
  | row :: rest =>
      match convertRow cols row, convertRows cols rest with
      | Except.error e, _ => Except.error e
      | Except.ok _, Except.error e => Except.error e
      | Except.ok f, Except.ok fs => Except.ok (f :: fs)

/-- Result of `query_flights`: the returned value (`None` on any failure)
plus whether a connection was opened and whether it was closed before
returning. -/
structure QFOut where
  flights : Option (List Flight)
  connOpened : Bool
  connClosed : Bool

/-- `query_flights`: connect (returning `None` if that fails), execute the
fixed query, convert the rows; any exception is caught and turns the result
into `None`; the `finally` block closes the connection whenever one was
opened. -/
def query_flights (w : DBWorld) : QFOut :=
  match w.connect with
  | ConnectOutcome.fail =>
      { flights := none, connOpened := false, connClosed := false }
  | ConnectOutcome.ok =>
      match w.execute with
      | Except.error _ =>
          { flights := none, connOpened := true, connClosed := true }
      | Except.ok _ =>
          match convertRows w.columns w.rows with
          | Except.error _ =>
              { flights := none, connOpened := true, connClosed := true }
          | Except.ok fs =>
              { flights := some fs, connOpened := true, connClosed := true }

/-! ## json.dumps on the handler's data -/

/-- `json.dumps` on one cell value: `None`, numbers and strings serialize;
`Decimal`, `datetime` and other objects raise `TypeError`. -/
def jsonOfCell : CellValue → Except String JValue
  | CellValue.vnone => Except.ok JValue.null
  | CellValue.vint n => Except.ok (JValue.num (n : ℚ))
  | CellValue.vfloat q => Except.ok (JValue.num q)
  | CellValue.vstr s => Except.ok (JValue.str s)
  | CellValue.vdecimal _ =>
      Except.error "Object of type Decimal is not JSON serializable"
  | CellValue.vdatetime _ =>
      Except.error "Object of type datetime is not JSON serializable"
  | CellValue.isoRaises _ =>
      Except.error "Object is not JSON serializable"

/-- `json.dumps` on the items of one flight dict, keys in insertion order;
the first unserializable value raises. -/
def jsonOfFlightFields : List (String × CellValue) → Except String (List (String × JValue))
  | [] => Except.ok []
  | (k, v) :: rest =>
      match jsonOfCell v, jsonOfFlightFields rest with
      | Except.error e, _ => Except.error e
      | Except.ok _, Except.error e => Except.error e
      | Except.ok j, Except.ok fields => Except.ok ((k, j) :: fields)

/-- `json.dumps` on one flight dict. -/
def jsonOfFlight (f : Flight) : Except String JValue :=
  match jsonOfFlightFields f with
  | Except.error e => Except.error e
  | Except.ok fields => Except.ok (JValue.obj fields)

/-- `json.dumps` on each flight of the list, in order. -/
def jsonItems : List Flight → Except String (List JValue)
  | [] => Except.ok []
  | f :: rest =>
      match jsonOfFlight f, jsonItems rest with
      | Except.error e, _ => Except.error e
      | Except.ok _, Except.error e => Except.error e
      | Except.ok j, Except.ok xs => Except.ok (j :: xs)

/-- `json.dumps` on the flights list. -/
def jsonOfFlights (fs : List Flight) : Except String JValue :=
  match jsonItems fs with
  | Except.error e => Except.error e
  | Except.ok xs => Except.ok (JValue.arr xs)

/-! ## The request handlers (`server.py` lines 129-241) -/

/-- `handle_flights_api` (`server.py` lines 200-234): a `None` from
`query_flights` becomes a 500 with a fixed error message; otherwise the list
is serialized and sent with 200; an exception while serializing is caught
and becomes a 500 with `Server error: <message>`. -/
def handle_flights_api (w : DBWorld) : Response :=
  match (query_flights w).flights with
  | none =>
      mkJsonResponse 500 (JValue.obj
        [("error", JValue.str "Failed to query flights from database. Check server console for details.")])
  | some fs =>
      match jsonOfFlights fs with
      | Except.error e =>
          mkJsonResponse 500 (JValue.obj
            [("error", JValue.str ("Server error: " ++ e))])
      | Except.ok j => mkJsonResponse 200 j

/-- `handle_test_connection` (`server.py` lines 158-198). Returns the
response together with whether the opened connection was closed before the
response was sent (`conn.close()` appears only on the success path). -/
def handle_test_connection (connect : ConnectOutcome)
    (versionQuery : Except String String) : Response × Bool :=
  match connect with
  | ConnectOutcome.fail =>
      (mkJsonResponse 500 (JValue.obj
        [("success", JValue.bool false),
         ("error", JValue.str "Could not establish database connection. Check server console for details.")]),
       false)
  | ConnectOutcome.ok =>
      match versionQuery with
      | Except.error e =>
          (mkJsonResponse 500 (JValue.obj
            [("success", JValue.bool false),
             ("error", JValue.str e)]),
           false)
      | Except.ok version =>
          (mkJsonResponse 200 (JValue.obj
            [("success", JValue.bool true),
             ("message", JValue.str "Database connection successful!"),
             ("sql_server_version",
              JValue.str (if version ≠ "" then pySlice100 version else "Unknown"))]),
           true)

/-- `urllib.parse.urlparse(self.path).path` for origin-form request targets:
everything before the query or fragment. -/
def parsePath (p : String) : String :=
  String.mk (p.data.takeWhile (fun c => !(c == '?' || c == '#')))

/-- `do_GET` (`server.py` lines 130-156): dispatch on the parsed path; the
two API paths go to their handlers (whose own `try/except` blocks let no
exception escape); anything else goes to the inherited static handler, and
an exception escaping it is caught by the outermost `except` and turned into
a 500 JSON error response. -/
def do_GET (w : World) : Response :=
  if parsePath w.path = "/api/flights" then
    handle_flights_api w.db
  else if parsePath w.path = "/api/test-connection" then
    (handle_test_connection w.tcConnect w.tcVersion).1
  else
    match w.static with
    | StaticOutcome.ok status libHeaders contents =>
        mkStaticResponse status libHeaders contents
    | StaticOutcome.raises msg =>
        mkJsonResponse 500 (JValue.obj
          [("error", JValue.str ("Unexpected server error: " ++ msg))])

/-! ## Shared concrete data and derived notions used by the theorems -/

/-- The column names the cursor reports for the fixed flights query. -/
def stdColumns : List String := ["id", "date", "from", "to", "price", "duration"]

/-- The single database row of the spec's scenario: `id=1`, `date=2024-01-01`,
`from="JFK"`, `to="LAX"`, `price=199.99` (a `Decimal`), `duration=330`. -/
def singleRow : List CellValue :=
  [CellValue.vint 1, CellValue.vdatetime ⟨2024, 1, 1, 0, 0, 0⟩,
   CellValue.vstr "JFK", CellValue.vstr "LAX",
   CellValue.vdecimal (199.99 : ℚ), CellValue.vint 330]

/-- A world where `/api/flights` is requested and the database delivers
exactly `singleRow`. -/
def singleRowWorld : World :=
  { path := "/api/flights",
    db := { connect := ConnectOutcome.ok, execute := Except.ok (),
            columns := stdColumns, rows := [singleRow] },
    tcConnect := ConnectOutcome.fail, tcVersion := Except.error "unused",
    static := StaticOutcome.raises "unused" }

/-- A world where a static path is requested and the static handler raises. -/
def staticRaisesWorld : World :=
  { path := "/dashboard.html",
    db := { connect := ConnectOutcome.fail, execute := Except.ok (),
            columns := [], rows := [] },
    tcConnect := ConnectOutcome.fail, tcVersion := Except.error "unused",
    static := StaticOutcome.raises "boom" }

/-- A world where `/api/flights` is requested and the database is
unreachable. -/
def dbDownWorld : World :=
  { path := "/api/flights",
    db := { connect := ConnectOutcome.fail, execute := Except.ok (),
            columns := [], rows := [] },
    tcConnect := ConnectOutcome.fail, tcVersion := Except.error "unused",
    static := StaticOutcome.raises "unused" }

/-- A world where `/api/test-connection` is requested and the connection
cannot be opened. -/
def tcFailWorld : World :=
  { path := "/api/test-connection",
    db := { connect := ConnectOutcome.fail, execute := Except.ok (),
            columns := [], rows := [] },
    tcConnect := ConnectOutcome.fail, tcVersion := Except.error "unused",
    static := StaticOutcome.raises "unused" }

/-- The `date` member of a serialized JSON object, if any. -/
def jsonDateField : JValue → Option JValue
  | JValue.obj fields => fields.lookup "date"
  | _ => none

/-- Strict lexicographic order on character lists (the order underlying
string comparison). -/
@[reducible] def lexLt (s t : List Char) : Prop := List.Lex (· < ·) s t

/-- Reflexive lexicographic order on character lists. -/
@[reducible] def lexLe (s t : List Char) : Prop := s = t ∨ lexLt s t

/-- Chronological order on datetimes: lexicographic on
(year, month, day, hour, minute, second). -/
def dtLe (a b : PyDateTime) : Prop :=
  a.year < b.year ∨ (a.year = b.year ∧ (a.month < b.month ∨ (a.month = b.month ∧
    (a.day < b.day ∨ (a.day = b.day ∧ (a.hour < b.hour ∨ (a.hour = b.hour ∧
      (a.minute < b.minute ∨ (a.minute = b.minute ∧
        a.second ≤ b.second)))))))))

instance (a b : PyDateTime) : Decidable (dtLe a b) := by
  unfold dtLe; infer_instance

/-- A second database row, dated after `singleRow`. -/
def laterRow : List CellValue :=
  [CellValue.vint 2, CellValue.vdatetime ⟨2024, 2, 5, 10, 30, 0⟩,
   CellValue.vstr "SFO", CellValue.vstr "ORD",
   CellValue.vnone, CellValue.vint 250]

/-- The datetimes of the two rows of `twoRowWorld`, in delivery order. -/
def twoRowDts : List PyDateTime :=
  [⟨2024, 1, 1, 0, 0, 0⟩, ⟨2024, 2, 5, 10, 30, 0⟩]

/-- The flights `query_flights` converts the two rows into. -/
def twoRowFlights : List Flight :=
  [[("id", CellValue.vint 1), ("date", CellValue.vstr "2024-01-01T00:00:00"),
    ("from", CellValue.vstr "JFK"), ("to", CellValue.vstr "LAX"),
    ("price", CellValue.vfloat (199.99 : ℚ)), ("duration", CellValue.vint 330)],
   [("id", CellValue.vint 2), ("date", CellValue.vstr "2024-02-05T10:30:00"),
    ("from", CellValue.vstr "SFO"), ("to", CellValue.vstr "ORD"),
    ("price", CellValue.vnone), ("duration", CellValue.vint 250)]]

/-- A world where `/api/flights` is requested and the database delivers the
two rows in date order. -/
def twoRowWorld : World :=
  { path := "/api/flights",
    db := { connect := ConnectOutcome.ok, execute := Except.ok (),
            columns := stdColumns, rows := [singleRow, laterRow] },
    tcConnect := ConnectOutcome.fail, tcVersion := Except.error "unused",
    static := StaticOutcome.raises "unused" }

/-! ## Helper lemmas -/

theorem leadsWith_append (p r : List Char) : leadsWith p (p ++ r) = true := by
  induction p with
  | nil => rfl
  | cons a as ih => simp [leadsWith, ih]

theorem containsSub_of_data (pat s : String) (pre post : List Char)
    (h : s.data = pre ++ pat.data ++ post) : containsSub pat s = true := by
  unfold containsSub
  rw [h, List.any_eq_true]
  exact ⟨pat.data ++ post, (List.mem_tails _ _).mpr ⟨pre, by rw [List.append_assoc]⟩,
    leadsWith_append _ _⟩

theorem query_flights_none_of_fail (w : DBWorld)
    (h : w.connect = ConnectOutcome.fail ∨ (∃ e, w.execute = Except.error e) ∨
         (∃ e, convertRows w.columns w.rows = Except.error e)) :
    (query_flights w).flights = none := by
  unfold query_flights
  cases hc : w.connect with
  | fail => rfl
  | ok =>
    cases hex : w.execute with
    | error e => rfl
    | ok u =>
      rcases h with h | ⟨e, h⟩ | ⟨e, h⟩
      · rw [hc] at h; cases h
      · rw [hex] at h; cases h
      · rw [h]

/-! ## Claim theorems -/

/-- Claim C7: whenever `query_flights` successfully opens a database
connection, that connection is closed again before `query_flights` returns,
on the success path and on every failure path (query execution error or
row-conversion error). -/
theorem query_flights_closes_connection (w : DBWorld)
    (h : w.connect = ConnectOutcome.ok) :
    (query_flights w).connOpened = true ∧ (query_flights w).connClosed = true := by
  unfold query_flights
  rw [h]
  cases hex : w.execute with
  | error e => exact ⟨rfl, rfl⟩
  | ok u =>
    cases hcv : convertRows w.columns w.rows with
    | error e => exact ⟨rfl, rfl⟩
    | ok fs => exact ⟨rfl, rfl⟩

/-- Witness for C7: a concrete world where the connection opens and the
query then fails. -/
theorem query_flights_closes_connection_witness :
    (query_flights ⟨ConnectOutcome.ok, Except.error "boom", [], []⟩).connOpened = true ∧
    (query_flights ⟨ConnectOutcome.ok, Except.error "boom", [], []⟩).connClosed = true :=
  query_flights_closes_connection ⟨ConnectOutcome.ok, Except.error "boom", [], []⟩ rfl

/-- Claim C8: every response produced by the handler — API success, API
failure, error-boundary 500 and static-file responses — carries the three
CORS headers. -/
theorem all_responses_have_cors (w : World) :
    ("Access-Control-Allow-Origin", "*") ∈ (do_GET w).headers ∧
    ("Access-Control-Allow-Methods", "GET") ∈ (do_GET w).headers ∧
    ("Access-Control-Allow-Headers", "Content-Type") ∈ (do_GET w).headers := by
  have h : ∃ pre, (do_GET w).headers = pre ++ corsHeaders := by
    unfold do_GET handle_flights_api handle_test_connection mkJsonResponse mkStaticResponse
    repeat' split
    all_goals exact ⟨_, rfl⟩
  rcases h with ⟨pre, hp⟩
  refine ⟨?_, ?_, ?_⟩ <;> rw [hp] <;> simp [corsHeaders]

/-- Claim C10: on `/api/test-connection`, when the connection is established
but the version query raises, the handler sends the 500 failure response
without closing the opened connection; the connection is closed before
responding only on the success path. -/
theorem test_connection_close_behavior (v : Except String String) :
    (∀ e, v = Except.error e →
       handle_test_connection ConnectOutcome.ok v =
         (mkJsonResponse 500 (JValue.obj
           [("success", JValue.bool false), ("error", JValue.str e)]), false)) ∧
    (∀ s, v = Except.ok s → (handle_test_connection ConnectOutcome.ok v).2 = true) := by
  constructor
  · rintro e rfl; rfl
  · rintro s rfl; rfl

/-- Witness for C10: a failing and a succeeding version query, concretely. -/
theorem test_connection_close_behavior_witness :
    handle_test_connection ConnectOutcome.ok (Except.error "oops") =
      (mkJsonResponse 500 (JValue.obj
        [("success", JValue.bool false), ("error", JValue.str "oops")]), false) ∧
    (handle_test_connection ConnectOutcome.ok (Except.ok "Microsoft SQL Server")).2 = true :=
  ⟨(test_connection_close_behavior (Except.error "oops")).1 "oops" rfl,
   (test_connection_close_behavior (Except.ok "Microsoft SQL Server")).2
     "Microsoft SQL Server" rfl⟩

/-- Claim C2: on `/api/test-connection`, a connection failure yields HTTP
500 with `success = false` and a non-empty `error` string; a successful
connection with a successful version query yields HTTP 200 with
`success = true`. -/
theorem test_connection_status (w : World)
    (hpath : parsePath w.path = "/api/test-connection") :
    (w.tcConnect = ConnectOutcome.fail →
       (do_GET w).status = 500 ∧
       ∃ fields e, (do_GET w).body = Body.json (JValue.obj fields) ∧
         ("success", JValue.bool false) ∈ fields ∧
         ("error", JValue.str e) ∈ fields ∧ e ≠ "") ∧
    (∀ version, w.tcConnect = ConnectOutcome.ok → w.tcVersion = Except.ok version →
       (do_GET w).status = 200 ∧
       ∃ fields, (do_GET w).body = Body.json (JValue.obj fields) ∧
         ("success", JValue.bool true) ∈ fields) := by
  have hne : parsePath w.path ≠ "/api/flights" := by rw [hpath]; decide
  have hred : do_GET w = (handle_test_connection w.tcConnect w.tcVersion).1 := by
    unfold do_GET; rw [if_neg hne, if_pos hpath]
  constructor
  · intro hc
    rw [hred]; unfold handle_test_connection; rw [hc]
    refine ⟨rfl, _,
      "Could not establish database connection. Check server console for details.",
      rfl, by simp, by simp, by decide⟩
  · intro version hc hv
    rw [hred]; unfold handle_test_connection; rw [hc, hv]
    exact ⟨rfl, _, rfl, by simp⟩

/-- Witness for C2: the connection-failure case at a concrete world. -/
theorem test_connection_status_witness :
    (do_GET tcFailWorld).status = 500 ∧
    ∃ fields e,
      (do_GET tcFailWorld).body = Body.json (JValue.obj fields) ∧
      ("success", JValue.bool false) ∈ fields ∧
      ("error", JValue.str e) ∈ fields ∧ e ≠ "" :=
  (test_connection_status tcFailWorld rfl).1 rfl

/-- Claim C1: any uncaught failure in request handling (in particular one
escaping the static-file path) is caught at the outermost dispatch point of
`do_GET` and becomes an HTTP 500 response with JSON body
`\x7b"error": "<message>"\x7d`; and every request handled by `do_GET` ends
with a response (an API response with status 200 or 500, or the static
handler's own completed response). -/
theorem do_GET_error_boundary :
    (∀ (w : World) (msg : String),
       parsePath w.path ≠ "/api/flights" →
       parsePath w.path ≠ "/api/test-connection" →
       w.static = StaticOutcome.raises msg →
       do_GET w = mkJsonResponse 500 (JValue.obj
         [("error", JValue.str ("Unexpected server error: " ++ msg))])) ∧
    (∀ w : World, (do_GET w).status = 200 ∨ (do_GET w).status = 500 ∨
       ∃ s hs c, w.static = StaticOutcome.ok s hs c ∧
         do_GET w = mkStaticResponse s hs c) := by
  constructor
  · intro w msg h1 h2 h3
    unfold do_GET
    rw [if_neg h1, if_neg h2, h3]
  · intro w
    unfold do_GET
    by_cases h1 : parsePath w.path = "/api/flights"
    · rw [if_pos h1]
      unfold handle_flights_api
      cases hq : (query_flights w.db).flights with
      | none => right; left; rfl
      | some fs =>
        dsimp only
        cases hj : jsonOfFlights fs with
        | error e => right; left; rfl
        | ok j => left; rfl
    · rw [if_neg h1]
      by_cases h2 : parsePath w.path = "/api/test-connection"
      · rw [if_pos h2]
        unfold handle_test_connection
        cases hc : w.tcConnect with
        | fail => right; left; rfl
        | ok =>
          cases hv : w.tcVersion with
          | error e => right; left; rfl
          | ok s => left; rfl
      · rw [if_neg h2]
        cases hs : w.static with
        | ok s hh c => right; right; exact ⟨s, hh, c, rfl, rfl⟩
        | raises msg => right; left; rfl

/-- Witness for C1: a static request whose handling raises, concretely. -/
theorem do_GET_error_boundary_witness :
    do_GET staticRaisesWorld = mkJsonResponse 500 (JValue.obj
      [("error", JValue.str ("Unexpected server error: " ++ "boom"))]) :=
  do_GET_error_boundary.1 staticRaisesWorld "boom" (by decide) (by decide) rfl

/-- Claim C3: on `/api/flights`, if the query fails for any of the three
reasons — connection cannot be established, query execution raises, or row
conversion raises — the response is HTTP 500 and its body is a JSON object
with a non-empty `error` string. -/
theorem flights_api_failure_500 (w : World)
    (hpath : parsePath w.path = "/api/flights")
    (hfail : w.db.connect = ConnectOutcome.fail ∨
             (∃ e, w.db.execute = Except.error e) ∨
             (∃ e, convertRows w.db.columns w.db.rows = Except.error e)) :
    (do_GET w).status = 500 ∧
    ∃ s, (do_GET w).body = Body.json (JValue.obj [("error", JValue.str s)]) ∧
      s ≠ "" := by
  have hq := query_flights_none_of_fail w.db hfail
  have hred : do_GET w = handle_flights_api w.db := by
    unfold do_GET; rw [if_pos hpath]
  rw [hred]; unfold handle_flights_api; rw [hq]
  exact ⟨rfl, _, rfl, by decide⟩

/-- Witness for C3: `/api/flights` with the database unreachable. -/
theorem flights_api_failure_500_witness :
    (do_GET dbDownWorld).status = 500 ∧
    ∃ s, (do_GET dbDownWorld).body =
        Body.json (JValue.obj [("error", JValue.str s)]) ∧ s ≠ "" :=
  flights_api_failure_500 dbDownWorld rfl (Or.inl rfl)

/-- Claim C4: against a database delivering exactly the one row `(id=1,
date=2024-01-01, from="JFK", to="LAX", price=199.99 as a Decimal,
duration=330)`, a GET of `/api/flights` returns HTTP 200 whose JSON body is
the one-element array with the normalized record. -/
theorem flights_api_single_row :
    do_GET singleRowWorld =
      mkJsonResponse 200 (JValue.arr
        [JValue.obj
          [("id", JValue.num 1),
           ("date", JValue.str "2024-01-01T00:00:00"),
           ("from", JValue.str "JFK"),
           ("to", JValue.str "LAX"),
           ("price", JValue.num (199.99 : ℚ)),
           ("duration", JValue.num 330)]]) := by rfl

/-- Claim C5: the normalization loop keeps null as null, replaces any
date/time value by its textual ISO form, replaces any fixed-point decimal by
a floating-point number, and leaves every other value unchanged; as a
consequence, a price delivered as null, a decimal or a number serializes as
a JSON number or null, never a textual decimal. -/
theorem normalization_rules :
    (convertCell CellValue.vnone = Except.ok CellValue.vnone) ∧
    (∀ dt, convertCell (CellValue.vdatetime dt) =
       Except.ok (CellValue.vstr dt.isoformat)) ∧
    (∀ q, convertCell (CellValue.vdecimal q) = Except.ok (CellValue.vfloat q)) ∧
    (∀ n, convertCell (CellValue.vint n) = Except.ok (CellValue.vint n)) ∧
    (∀ q, convertCell (CellValue.vfloat q) = Except.ok (CellValue.vfloat q)) ∧
    (∀ s, convertCell (CellValue.vstr s) = Except.ok (CellValue.vstr s)) ∧
    (∀ v : CellValue,
       (v = CellValue.vnone ∨ (∃ q, v = CellValue.vdecimal q) ∨
        (∃ n, v = CellValue.vint n) ∨ (∃ q, v = CellValue.vfloat q)) →
       ∃ v' j, convertCell v = Except.ok v' ∧ jsonOfCell v' = Except.ok j ∧
         (j = JValue.null ∨ ∃ q, j = JValue.num q)) := by
  refine ⟨rfl, fun dt => rfl, fun q => rfl, fun n => rfl, fun q => rfl,
    fun s => rfl, ?_⟩
  rintro v (rfl | ⟨q, rfl⟩ | ⟨n, rfl⟩ | ⟨q, rfl⟩)
  · exact ⟨_, _, rfl, rfl, Or.inl rfl⟩
  · exact ⟨_, _, rfl, rfl, Or.inr ⟨q, rfl⟩⟩
  · exact ⟨_, _, rfl, rfl, Or.inr ⟨(n : ℚ), rfl⟩⟩
  · exact ⟨_, _, rfl, rfl, Or.inr ⟨q, rfl⟩⟩

/-- Witness for C5: the price `Decimal('199.99')` normalizes to a JSON
number. -/
theorem normalization_rules_witness :
    ∃ v' j, convertCell (CellValue.vdecimal (199.99 : ℚ)) = Except.ok v' ∧
      jsonOfCell v' = Except.ok j ∧
      (j = JValue.null ∨ ∃ q, j = JValue.num q) :=
  normalization_rules.2.2.2.2.2.2 (CellValue.vdecimal (199.99 : ℚ))
    (Or.inr (Or.inl ⟨(199.99 : ℚ), rfl⟩))

/-- Claim C9: the connection string uses explicit UID/PWD authentication
exactly when both the configured username and password are non-empty; if
either is empty it is the fixed trusted-authentication string, which
requests `Trusted_Connection=yes` and omits the credentials. -/
theorem conn_str_auth_modes (user pass : String) :
    (user ≠ "" ∧ pass ≠ "" →
       containsSub ("UID=" ++ user ++ ";" ++ "PWD=" ++ pass)
         (connectionString user pass) = true) ∧
    ((user = "" ∨ pass = "") →
       connectionString user pass = connectionString "" "" ∧
       containsSub "Trusted_Connection=yes" (connectionString user pass) = true ∧
       containsSub "UID=" (connectionString user pass) = false ∧
       containsSub "PWD=" (connectionString user pass) = false) := by
  constructor
  · intro h
    unfold connectionString
    rw [if_pos h]
    apply containsSub_of_data _ _
      ("DRIVER=" ++ SQL_DRIVER ++ ";" ++ "SERVER=" ++ SQL_SERVER ++ ";" ++
        "DATABASE=" ++ SQL_DATABASE ++ ";").data []
    simp [String.data_append]
  · intro h
    have hneg : ¬(user ≠ "" ∧ pass ≠ "") := by
      rcases h with h | h <;> simp [h]
    have hconst : connectionString user pass = connectionString "" "" := by
      unfold connectionString
      rw [if_neg hneg, if_neg (fun hc => hc.1 rfl)]
    refine ⟨hconst, ?_, ?_, ?_⟩ <;> rw [hconst] <;> decide

/-- Witness for C9: both authentication modes at concrete credentials. -/
theorem conn_str_auth_modes_witness :
    containsSub ("UID=" ++ "sa" ++ ";" ++ "PWD=" ++ "pw")
      (connectionString "sa" "pw") = true ∧
    (connectionString "" "secret" = connectionString "" "" ∧
     containsSub "Trusted_Connection=yes" (connectionString "" "secret") = true ∧
     containsSub "UID=" (connectionString "" "secret") = false ∧
     containsSub "PWD=" (connectionString "" "secret") = false) :=
  ⟨(conn_str_auth_modes "sa" "pw").1 ⟨by decide, by decide⟩,
   (conn_str_auth_modes "" "secret").2 (Or.inl rfl)⟩

/-! ## Lexicographic order of zero-padded numerals and ISO timestamps -/

theorem padNum_length (k : Nat) : ∀ n, (padNum k n).length = k := by
  induction k with
  | zero => intro n; rfl
  | succ k ih => intro n; simp [padNum, ih]

theorem digitChar_lt_digitChar {a b : Nat} (h : a < b) (hb : b < 10) :
    Nat.digitChar a < Nat.digitChar b := by
  have ha : a < 10 := lt_trans h hb
  interval_cases a <;> interval_cases b <;> revert h <;> decide

theorem padNum_lt : ∀ (k : Nat) {a b : Nat}, a < b → b < 10 ^ k →
    lexLt (padNum k a) (padNum k b) := by
  intro k
  induction k with
  | zero =>
    intro a b hab hb
    rw [pow_zero] at hb
    omega
  | succ k ih =>
    intro a b hab hb
    have hpos : 0 < 10 ^ k := Nat.pos_pow_of_pos k (by norm_num)
    have hbq : b / 10 ^ k < 10 := by
      rw [Nat.div_lt_iff_lt_mul hpos]
      calc b < 10 ^ (k + 1) := hb
        _ = 10 * 10 ^ k := by ring
    have haq : a / 10 ^ k ≤ b / 10 ^ k := Nat.div_le_div_right (le_of_lt hab)
    show List.Lex (· < ·)
      (Nat.digitChar (a / 10 ^ k) :: padNum k (a % 10 ^ k))
      (Nat.digitChar (b / 10 ^ k) :: padNum k (b % 10 ^ k))
    rcases Nat.lt_or_ge (a / 10 ^ k) (b / 10 ^ k) with hlt | hge
    · exact List.Lex.rel (digitChar_lt_digitChar hlt hbq)
    · have heq : a / 10 ^ k = b / 10 ^ k := le_antisymm haq hge
      have hmod : a % 10 ^ k < b % 10 ^ k := by
        have h1 := Nat.div_add_mod a (10 ^ k)
        have h2 := Nat.div_add_mod b (10 ^ k)
        rw [heq] at h1
        omega
      have hmb : b % 10 ^ k < 10 ^ k := Nat.mod_lt _ hpos
      rw [heq]
      exact List.Lex.cons (ih hmod hmb)

theorem padNum_le (k : Nat) {a b : Nat} (hab : a ≤ b) (hb : b < 10 ^ k) :
    lexLe (padNum k a) (padNum k b) := by
  rcases lt_or_eq_of_le hab with hlt | rfl
  · exact Or.inr (padNum_lt k hlt hb)
  · exact Or.inl rfl

theorem lexLt_append : ∀ {s t : List Char}, lexLt s t → s.length = t.length →
    ∀ u v, lexLt (s ++ u) (t ++ v) := by
  intro s t h
  induction h with
  | nil => intro hl u v; simp at hl
  | rel hr => intro _ u v; exact List.Lex.rel hr
  | cons h ih => intro hl u v; exact List.Lex.cons (ih (by simpa using hl) u v)

theorem lexLe_append_left (s : List Char) {u v : List Char} (h : lexLe u v) :
    lexLe (s ++ u) (s ++ v) := by
  rcases h with rfl | h
  · exact Or.inl rfl
  · exact Or.inr (List.Lex.append_left _ h s)

theorem lexLe_cons (c : Char) {u v : List Char} (h : lexLe u v) :
    lexLe (c :: u) (c :: v) := by
  rcases h with rfl | h
  · exact Or.inl rfl
  · exact Or.inr (List.Lex.cons h)

theorem lexLe_seg {x y : Nat} (w : Nat) (r1 r2 : List Char) (hy : y < 10 ^ w)
    (hd : x < y ∨ (x = y ∧ lexLe r1 r2)) :
    lexLe (padNum w x ++ r1) (padNum w y ++ r2) := by
  rcases hd with hlt | ⟨rfl, hr⟩
  · exact Or.inr (lexLt_append (padNum_lt w hlt hy)
      (by rw [padNum_length, padNum_length]) r1 r2)
  · exact lexLe_append_left _ hr

theorem isoChars_mono {a b : PyDateTime} (ha : a.valid) (hb : b.valid)
    (h : dtLe a b) : lexLe (isoChars a) (isoChars b) := by
  obtain ⟨hay1, hay2, ham1, ham2, had1, had2, hah, hami, has⟩ := ha
  obtain ⟨hby1, hby2, hbm1, hbm2, hbd1, hbd2, hbh, hbmi, hbs⟩ := hb
  have h4 : (10 : ℕ) ^ 4 = 10000 := by norm_num
  have h2 : (10 : ℕ) ^ 2 = 100 := by norm_num
  unfold isoChars
  apply lexLe_seg 4 _ _ (by omega)
  rcases h with h | ⟨he, h⟩
  · exact Or.inl h
  · refine Or.inr ⟨he, lexLe_cons '-' ?_⟩
    apply lexLe_seg 2 _ _ (by omega)
    rcases h with h | ⟨he2, h⟩
    · exact Or.inl h
    · refine Or.inr ⟨he2, lexLe_cons '-' ?_⟩
      apply lexLe_seg 2 _ _ (by omega)
      rcases h with h | ⟨he3, h⟩
      · exact Or.inl h
      · refine Or.inr ⟨he3, lexLe_cons 'T' ?_⟩
        apply lexLe_seg 2 _ _ (by omega)
        rcases h with h | ⟨he4, h⟩
        · exact Or.inl h
        · refine Or.inr ⟨he4, lexLe_cons ':' ?_⟩
          apply lexLe_seg 2 _ _ (by omega)
          rcases h with h | ⟨he5, h⟩
          · exact Or.inl h
          · refine Or.inr ⟨he5, lexLe_cons ':' ?_⟩
            exact padNum_le 2 h (by omega)

theorem isoformat_mono {a b : PyDateTime} (ha : a.valid) (hb : b.valid)
    (h : dtLe a b) : a.isoformat ≤ b.isoformat := by
  rcases isoChars_mono ha hb h with heq | hlt
  · exact le_of_eq (congrArg String.mk heq)
  · apply le_of_lt
    rw [String.lt_iff_toList_lt]
    exact hlt

/-! ## Serialization of converted rows, and order preservation -/

theorem convertCell_serializable {v v' : CellValue}
    (h : convertCell v = Except.ok v') : ∃ j, jsonOfCell v' = Except.ok j := by
  cases v with
  | vnone => cases h; exact ⟨_, rfl⟩
  | vint n => cases h; exact ⟨_, rfl⟩
  | vfloat q => cases h; exact ⟨_, rfl⟩
  | vstr s => cases h; exact ⟨_, rfl⟩
  | vdecimal q => cases h; exact ⟨_, rfl⟩
  | vdatetime dt => cases h; exact ⟨_, rfl⟩
  | isoRaises m => cases h

theorem convertPairs_fields : ∀ {l : List (String × CellValue)}
    {f : List (String × CellValue)}, convertPairs l = Except.ok f →
    ∃ fields, jsonOfFlightFields f = Except.ok fields := by
  intro l
  induction l with
  | nil => intro f h; cases h; exact ⟨[], rfl⟩
  | cons kv rest ih =>
    intro f h
    rcases kv with ⟨k, v⟩
    unfold convertPairs at h
    cases hv : convertCell v with
    | error e => rw [hv] at h; cases h
    | ok v' =>
      rw [hv] at h
      cases hr : convertPairs rest with
      | error e => rw [hr] at h; cases h
      | ok rest' =>
        rw [hr] at h
        cases h
        obtain ⟨j, hj⟩ := convertCell_serializable hv
        obtain ⟨fields, hf⟩ := ih hr
        refine ⟨(k, j) :: fields, ?_⟩
        unfold jsonOfFlightFields
        rw [hj, hf]

theorem convertRow_serializes {cols : List String} {row : List CellValue}
    {f : Flight} (h : convertRow cols row = Except.ok f) :
    ∃ fields, jsonOfFlight f = Except.ok (JValue.obj fields) := by
  obtain ⟨fields, hf⟩ := convertPairs_fields h
  refine ⟨fields, ?_⟩
  unfold jsonOfFlight
  rw [hf]

theorem convertPairs_cons_ok {k : String} {v : CellValue}
    {rest : List (String × CellValue)} {f : List (String × CellValue)} :
    convertPairs ((k, v) :: rest) = Except.ok f ↔
    ∃ v' rest', convertCell v = Except.ok v' ∧
      convertPairs rest = Except.ok rest' ∧ f = (k, v') :: rest' := by
  constructor
  · intro h
    unfold convertPairs at h
    cases hv : convertCell v with
    | error e => rw [hv] at h; cases h
    | ok v' =>
      rw [hv] at h
      cases hr : convertPairs rest with
      | error e => rw [hr] at h; cases h
      | ok rest' => rw [hr] at h; cases h; exact ⟨v', rest', rfl, rfl, rfl⟩
  · rintro ⟨v', rest', hv, hr, rfl⟩
    unfold convertPairs
    rw [hv, hr]

theorem jsonOfFlightFields_cons {k : String} {v : CellValue} {j : JValue}
    {rest : List (String × CellValue)} {fields : List (String × JValue)}
    (hv : jsonOfCell v = Except.ok j)
    (hr : jsonOfFlightFields rest = Except.ok fields) :
    jsonOfFlightFields ((k, v) :: rest) = Except.ok ((k, j) :: fields) := by
  unfold jsonOfFlightFields
  rw [hv, hr]

theorem flight_date_of_row {row : List CellValue} {dt : PyDateTime} {f : Flight}
    (hd : row.get? 1 = some (CellValue.vdatetime dt))
    (hc : convertRow stdColumns row = Except.ok f) :
    ∃ j, jsonOfFlight f = Except.ok j ∧
      jsonDateField j = some (JValue.str dt.isoformat) := by
  match row, hd with
  | c0 :: x :: rest, hd =>
    have hx : x = CellValue.vdatetime dt := by simpa using hd
    subst hx
    unfold convertRow at hc
    have hzip : stdColumns.zip (c0 :: CellValue.vdatetime dt :: rest) =
        ("id", c0) :: ("date", CellValue.vdatetime dt) ::
          (["from", "to", "price", "duration"].zip rest) := rfl
    rw [hzip] at hc
    obtain ⟨c0', f1, hv0, h1, rfl⟩ := convertPairs_cons_ok.mp hc
    obtain ⟨dv, frest, hvd, hrest, rfl⟩ := convertPairs_cons_ok.mp h1
    have hdv : dv = CellValue.vstr dt.isoformat := by
      cases hvd; rfl
    subst hdv
    obtain ⟨j0, hj0⟩ := convertCell_serializable hv0
    obtain ⟨fields, hfields⟩ := convertPairs_fields hrest
    refine ⟨JValue.obj (("id", j0) :: ("date", JValue.str dt.isoformat) :: fields),
      ?_, ?_⟩
    · unfold jsonOfFlight
      rw [jsonOfFlightFields_cons hj0
        (jsonOfFlightFields_cons
          (show jsonOfCell (CellValue.vstr dt.isoformat) =
            Except.ok (JValue.str dt.isoformat) from rfl) hfields)]
    · unfold jsonDateField
      simp [List.lookup]

theorem jsonItems_align : ∀ {rows : List (List CellValue)}
    {dts : List PyDateTime} {fs : List Flight},
    List.Forall₂ (fun row dt => row.get? 1 = some (CellValue.vdatetime dt)) rows dts →
    convertRows stdColumns rows = Except.ok fs →
    ∃ items, jsonItems fs = Except.ok items ∧
      items.map jsonDateField = dts.map (fun dt => some (JValue.str dt.isoformat)) := by
  intro rows
  induction rows with
  | nil =>
    intro dts fs hf hc
    cases hf
    cases hc
    exact ⟨[], rfl, rfl⟩
  | cons row rows ih =>
    intro dts fs hf hc
    cases hf with
    | cons hrel hrest =>
      unfold convertRows at hc
      cases hr : convertRow stdColumns row with
      | error e => rw [hr] at hc; cases hc
      | ok f =>
        rw [hr] at hc
        cases hrs : convertRows stdColumns rows with
        | error e => rw [hrs] at hc; cases hc
        | ok fs' =>
          rw [hrs] at hc
          cases hc
          obtain ⟨j, hj, hdate⟩ := flight_date_of_row hrel hr
          obtain ⟨items, hitems, hmap⟩ := ih hrest hrs
          refine ⟨j :: items, ?_, ?_⟩
          · unfold jsonItems
            rw [hj, hitems]
          · simp [hdate, hmap]

theorem convertRows_forall2 {cols : List String} : ∀ {rows : List (List CellValue)}
    {fs : List Flight}, convertRows cols rows = Except.ok fs →
    List.Forall₂ (fun row f => convertRow cols row = Except.ok f) rows fs := by
  intro rows
  induction rows with
  | nil => intro fs h; cases h; exact List.Forall₂.nil
  | cons row rows ih =>
    intro fs h
    unfold convertRows at h
    cases hr : convertRow cols row with
    | error e => rw [hr] at h; cases h
    | ok f =>
      rw [hr] at h
      cases hrs : convertRows cols rows with
      | error e => rw [hrs] at h; cases h
      | ok fs' =>
        rw [hrs] at h
        cases h
        exact List.Forall₂.cons hr (ih hrs)

/-- Claim C6: for a successful `/api/flights` request the returned JSON
array is sorted non-decreasing by the `date` field: the handler's query
carries an ascending sort on `date` (so the rows arrive in chronological
order, here a hypothesis on the oracle), and row conversion and
serialization preserve the delivered row order, turning chronologically
non-decreasing datetimes into lexicographically non-decreasing ISO date
strings. -/
theorem flights_sorted_by_date (w : World) (dts : List PyDateTime)
    (fs : List Flight)
    (hpath : parsePath w.path = "/api/flights")
    (hconn : w.db.connect = ConnectOutcome.ok)
    (hexec : w.db.execute = Except.ok ())
    (hcols : w.db.columns = stdColumns)
    (hdates : List.Forall₂ (fun row dt => row.get? 1 =
      some (CellValue.vdatetime dt)) w.db.rows dts)
    (hvalid : ∀ dt ∈ dts, dt.valid)
    (hsorted : List.Pairwise dtLe dts)
    (hconv : convertRows stdColumns w.db.rows = Except.ok fs) :
    containsSub "ORDER BY date ASC" flightsQuery = true ∧
    List.Forall₂ (fun row f => convertRow stdColumns row = Except.ok f)
      w.db.rows fs ∧
    ∃ items, do_GET w = mkJsonResponse 200 (JValue.arr items) ∧
      items.map jsonDateField =
        dts.map (fun dt => some (JValue.str dt.isoformat)) ∧
      List.Pairwise (fun s1 s2 => s1 ≤ s2) (dts.map PyDateTime.isoformat) := by
  obtain ⟨items, hitems, hmap⟩ := jsonItems_align hdates hconv
  have hqf : (query_flights w.db).flights = some fs := by
    unfold query_flights
    rw [hconn, hexec, hcols, hconv]
  have hjs : jsonOfFlights fs = Except.ok (JValue.arr items) := by
    unfold jsonOfFlights
    rw [hitems]
  have hresp : do_GET w = mkJsonResponse 200 (JValue.arr items) := by
    unfold do_GET
    rw [if_pos hpath]
    unfold handle_flights_api
    rw [hqf]
    dsimp only
    rw [hjs]
  refine ⟨by decide, convertRows_forall2 hconv, items, hresp, hmap, ?_⟩
  rw [List.pairwise_map]
  exact hsorted.imp_of_mem (fun ha hb hr =>
    isoformat_mono (hvalid _ ha) (hvalid _ hb) hr)

/-- Witness for C6: two rows in chronological order, concretely. -/
theorem flights_sorted_by_date_witness :
    containsSub "ORDER BY date ASC" flightsQuery = true ∧
    List.Forall₂ (fun row f => convertRow stdColumns row = Except.ok f)
      twoRowWorld.db.rows twoRowFlights ∧
    ∃ items, do_GET twoRowWorld = mkJsonResponse 200 (JValue.arr items) ∧
      items.map jsonDateField =
        twoRowDts.map (fun dt => some (JValue.str dt.isoformat)) ∧
      List.Pairwise (fun s1 s2 => s1 ≤ s2)
        (twoRowDts.map PyDateTime.isoformat) :=
  flights_sorted_by_date twoRowWorld twoRowDts twoRowFlights
    rfl rfl rfl rfl
    (List.Forall₂.cons rfl (List.Forall₂.cons rfl List.Forall₂.nil))
    (by decide)
    (by decide)
    rfl

end Dashboard
